import Mathlib

/-!
Verification of the openHiTLS server-side ClientHello processing
(`tls/handshake/recv/src/recv_client_hello.c`) and the ClientKeyExchange
encoder (`tls/handshake/pack/src/pack_client_key_exchange.c`) against the
natural-language specification.  The C functions are shallowly embedded as
executable Lean functions; external collaborators (callbacks, session
manager, crypto provider) are abstracted as explicit function parameters.
-/

namespace HiTLS

/-- Byte strings are lists of naturals (each intended `< 256`). -/
abbrev Bytes := List Nat

/-- TLS alert descriptions used by the embedded code paths
(`ALERT_*` constants of the alert module). -/
inductive AlertDescr where
  | closeNotify
  | handshakeFailure
  | illegalParameter
  | decryptError
  | protocolVersion
  | insufficientSecurity
  | internalError
  | unrecognizedName
  | missingExtension
  | noApplicationProtocol
deriving DecidableEq, Repr

/-- Alert level (`ALERT_LEVEL_*`). -/
inductive AlertLevel where
  | warning
  | fatal
deriving DecidableEq, Repr

/-- An alert as sent by `ctx->method.sendAlert`. -/
structure AlertMsg where
  level : AlertLevel
  descr : AlertDescr
deriving DecidableEq, Repr

/-- All alerts sent in the embedded paths are fatal. -/
def fatalAlert (d : AlertDescr) : AlertMsg :=
  { level := AlertLevel.fatal, descr := d }

/-- Error codes (`HITLS_*` return values) reached by the embedded code. -/
inductive HErr where
  | unsupportVersion
  | unsecureVersion
  | invalidCompressionMethod
  | invalidExtendedMasterSecret
  | sniUnrecognizedName
  | illegalCipherSuite
  | sessionIdCtxIllegal
  | illegalVersion
  | cipherSuiteErr
  | unsupportCipherSuite
  | alpnProtocolNoMatch
  | encryptThenMacErr
  | memAllocFail
  | internalException
  | pskInvalid
  | handshakeFailure
  | illegalSelectedGroup
  | missingExtension
  | getCipherSuiteFail
  | pskFindSessionFail
  | illegalPskLen
  | packInvalidKxPubkeyLength
  | packNotEnoughBufLength
  | cryptErrEncodeEcdhKey
  | decryptTicketFail
deriving DecidableEq, Repr

/-- Modelled from the spec: TLS wire version numbers (spec §6, bit-exact per
the RFCs).  The `HITLS_VERSION_*` macros live in public headers that are not
part of `src/`. -/
def HITLS_VERSION_SSL30 : Nat := 0x0300

/-- Modelled from the spec: TLS 1.0 wire version. -/
def HITLS_VERSION_TLS10 : Nat := 0x0301

/-- Modelled from the spec: TLS 1.1 wire version. -/
def HITLS_VERSION_TLS11 : Nat := 0x0302

/-- Modelled from the spec: TLS 1.2 wire version. -/
def HITLS_VERSION_TLS12 : Nat := 0x0303

/-- Modelled from the spec: TLS 1.3 wire version. -/
def HITLS_VERSION_TLS13 : Nat := 0x0304

/-- Modelled from the spec: TLCP 1.1 wire version (GM/T 0024). -/
def HITLS_VERSION_TLCP11 : Nat := 0x0101

/-- Modelled from the spec: DTLS 1.0 wire version. -/
def HITLS_VERSION_DTLS10 : Nat := 0xfeff

/-- Modelled from the spec: DTLS 1.2 wire version. -/
def HITLS_VERSION_DTLS12 : Nat := 0xfefd

/-- Modelled from the spec: `IS_DTLS_VERSION` recognises the DTLS wire
versions supported by the stack (DTLS 1.0 and DTLS 1.2, spec §6). -/
def isDtlsVer (v : Nat) : Bool :=
  v = HITLS_VERSION_DTLS10 ∨ v = HITLS_VERSION_DTLS12

/-! ## Compression methods (`ServerCheckCompressionMethods`,
`Tls13ServerCheckCompressionMethods`) -/

/-- Embeds `ServerCheckCompressionMethods` (recv_client_hello.c:943):
TLS ≤1.2 succeeds iff the list contains the null compression byte `0`,
otherwise a fatal `illegal_parameter` alert is sent. -/
def ServerCheckCompressionMethods (compressionMethods : Bytes) :
    Except (HErr × AlertMsg) Unit :=
  if 0 ∈ compressionMethods then Except.ok ()
  else Except.error (HErr.invalidCompressionMethod, fatalAlert AlertDescr.illegalParameter)

/-- Embeds `Tls13ServerCheckCompressionMethods` (recv_client_hello.c:960):
TLS 1.3 requires the list to have length exactly 1 and content `0`. -/
def Tls13ServerCheckCompressionMethods (compressionMethods : Bytes) :
    Except (HErr × AlertMsg) Unit :=
  if compressionMethods.length ≠ 1 then
    Except.error (HErr.invalidCompressionMethod, fatalAlert AlertDescr.illegalParameter)
  else if compressionMethods.head? = some 0 then Except.ok ()
  else Except.error (HErr.invalidCompressionMethod, fatalAlert AlertDescr.illegalParameter)

/-! ## Encrypt-then-MAC (`ServerCheckEncryptThenMac`) -/

/-- The `cipherType` field of the negotiated `CipherSuiteInfo`. -/
inductive CipherType where
  | cbcCipher
  | aeadCipher
  | streamCipher
deriving DecidableEq, Repr

/-- The slice of `TLS_Ctx` read by `ServerCheckEncryptThenMac`. -/
structure EtmCtx where
  /-- `negotiatedInfo.isRenegotiation` -/
  isRenegotiation : Bool
  /-- `negotiatedInfo.isEncryptThenMac` before the call -/
  isEncryptThenMac : Bool
  /-- `config.tlsConfig.isEncryptThenMac` -/
  cfgEncryptThenMac : Bool
  /-- `negotiatedInfo.version` -/
  version : Nat
  /-- `negotiatedInfo.cipherSuiteInfo.cipherType` -/
  cipherType : CipherType
deriving DecidableEq, Repr

/-- Embeds `ServerCheckEncryptThenMac` (recv_client_hello.c:993).  Returns the
new value of `negotiatedInfo.isEncryptThenMac` on success. -/
def ServerCheckEncryptThenMac (ctx : EtmCtx) (haveEncryptThenMac : Bool) :
    Except (HErr × AlertMsg) Bool :=
  if ctx.isRenegotiation ∧ ctx.isEncryptThenMac ∧ ¬haveEncryptThenMac then
    Except.error (HErr.encryptThenMacErr, fatalAlert AlertDescr.handshakeFailure)
  else if ¬ctx.cfgEncryptThenMac then Except.ok ctx.isEncryptThenMac
  else if ctx.version = HITLS_VERSION_TLS13 then Except.ok ctx.isEncryptThenMac
  else if haveEncryptThenMac ∧ ctx.cipherType = CipherType.cbcCipher then Except.ok true
  else Except.ok false

/-- Concrete contexts for the C7 witness. -/
def etmCtxFresh : EtmCtx :=
  { isRenegotiation := false, isEncryptThenMac := false, cfgEncryptThenMac := true,
    version := HITLS_VERSION_TLS12, cipherType := CipherType.cbcCipher }

/-- Concrete renegotiation context for the C7 witness. -/
def etmCtxRenego : EtmCtx :=
  { isRenegotiation := true, isEncryptThenMac := true, cfgEncryptThenMac := true,
    version := HITLS_VERSION_TLS12, cipherType := CipherType.cbcCipher }

/-! ## ALPN selection (`ServerSelectAlpnProtocol`) -/

/-- Result of the user ALPN selection callback `globalConfig->alpnSelectCb`:
`HITLS_ALPN_ERR_OK` with the chosen protocol, `HITLS_ALPN_ERR_NOACK`, or any
other return value. -/
inductive AlpnCbResult where
  | ok (proto : Bytes)
  | noack
  | fail
deriving DecidableEq, Repr

/-- The slice of `TLS_Ctx` read and written by `ServerSelectAlpnProtocol`:
the registered callback (`none` models a missing callback or missing
`globalConfig`) and `negotiatedInfo.alpnSelected` (`none` = unset). -/
structure AlpnCtx where
  alpnSelectCb : Option (Bytes → AlpnCbResult)
  alpnSelected : Option Bytes

/-- Embeds `ServerSelectAlpnProtocol` (recv_client_hello.c:498).  Memory
allocation and copying of the chosen protocol are modelled as always
succeeding. -/
def ServerSelectAlpnProtocol (ctx : AlpnCtx) (alpnList : Bytes) :
    Except (HErr × AlertMsg) AlpnCtx :=
  match ctx.alpnSelectCb with
  | none => Except.ok ctx
  | some cb =>
    match cb alpnList with
    | AlpnCbResult.ok proto => Except.ok { ctx with alpnSelected := some proto }
    | AlpnCbResult.noack => Except.ok ctx
    | AlpnCbResult.fail =>
      Except.error (HErr.alpnProtocolNoMatch, fatalAlert AlertDescr.noApplicationProtocol)

/-- Concrete ALPN context for the C6 witness: the callback accepts `h2` on a
first context and refuses on a second. -/
def alpnCtxOk : AlpnCtx :=
  { alpnSelectCb := some fun _ => AlpnCbResult.ok [104, 50], alpnSelected := none }

/-- Concrete ALPN context whose callback answers `NOACK`. -/
def alpnCtxNoack : AlpnCtx :=
  { alpnSelectCb := some fun _ => AlpnCbResult.noack, alpnSelected := none }

/-- Concrete ALPN context whose callback fails. -/
def alpnCtxFail : AlpnCtx :=
  { alpnSelectCb := some fun _ => AlpnCbResult.fail, alpnSelected := none }

/-! ## TLS ≤1.2 session resumption (`ServerCheckResume` and helpers) -/

/-- The slice of a `HITLS_Session` read by the resumption path. -/
structure SessionSt where
  /-- `HITLS_SESS_GetProtocolVersion` -/
  version : Nat
  /-- `HITLS_SESS_GetCipherSuite` -/
  cipherSuite : Nat
  /-- `HITLS_SESS_GetSessionIdCtx` -/
  sessionIdCtx : Bytes
  /-- `SESS_GetHostName`; `[]` models a NULL/absent host name -/
  hostName : Bytes
  /-- `HITLS_SESS_GetHaveExtMasterSecret` -/
  haveExtMasterSecret : Bool
  /-- outcome of `SESS_CheckValidity(sess, now)` -/
  valid : Bool
  /-- stored session id (rewritten by `HITLS_SESS_SetSessionId`) -/
  sessionId : Bytes
deriving DecidableEq, Repr

/-- The slice of the ClientHello message read by the resumption path. -/
structure CHResume where
  sessionId : Bytes
  cipherSuites : List Nat
  /-- `extension.flag.haveTicket` -/
  haveTicket : Bool
  /-- `extension.content.ticket`; `[]` models an empty payload -/
  ticket : Bytes
  /-- `extension.flag.haveExtendedMasterSecret` -/
  haveExtendedMasterSecret : Bool
  /-- `extension.flag.haveServerName` -/
  haveServerName : Bool
  /-- `extension.content.serverName` -/
  serverName : Bytes
  /-- `extension.flag.haveAlpn` -/
  haveAlpn : Bool
  /-- `extension.content.alpnList` -/
  alpnList : Bytes
deriving DecidableEq, Repr

/-- External collaborators of the resumption path, abstracted as functions. -/
structure ResumeEnv where
  /-- `HITLS_SESS_Dup(SESSMGR_Find(...))`; `none` = cache miss -/
  sessMgrFind : Bytes → Option SessionSt
  /-- `SESSMGR_DecryptSessionTicket`; outer `none` models a failing return
  (internal error), the inner pair is `(session-or-none, isTicketExpect)` -/
  decryptTicket : Bytes → Option (Option SessionSt × Bool)
  /-- `SNI_StrcaseCmp(a, b) == 0` -/
  sniCaseEq : Bytes → Bytes → Bool
  /-- `CFG_GetCipherSuiteInfo` success for a suite id -/
  suiteKnown : Nat → Bool
  /-- ALPN selection callback, shared with `ServerSelectAlpnProtocol` -/
  alpnSelectCb : Option (Bytes → AlpnCbResult)

/-- The slice of `TLS_Ctx` used by the resumption path. -/
structure ResumeCtx where
  /-- `negotiatedInfo.version` (already selected) -/
  negoVersion : Nat
  /-- `config.tlsConfig.maxVersion` -/
  maxVersion : Nat
  /-- `negotiatedInfo.isRenegotiation` -/
  isRenegotiation : Bool
  /-- `config.tlsConfig.isResumptionOnRenego` -/
  isResumptionOnRenego : Bool
  /-- `IsTicketSupport(ctx)` -/
  supportTicket : Bool
  /-- `config.tlsConfig.isSupportExtendMasterSecret` -/
  isSupportExtendMasterSecret : Bool
  /-- `globalConfig != NULL` -/
  haveGlobalConfig : Bool
  /-- `globalConfig->sniDealCb != NULL` -/
  sniDealCbSet : Bool
  /-- `config.tlsConfig.sessionIdCtx` -/
  sessionIdCtx : Bytes
  /-- `ctx->session` -/
  session : Option SessionSt
  /-- `negotiatedInfo.isResume` -/
  isResume : Bool
  /-- `negotiatedInfo.isTicket` -/
  isTicket : Bool
  /-- `negotiatedInfo.isExtendedMasterSecret` -/
  isExtendedMasterSecret : Bool
  /-- `negotiatedInfo.isSniStateOK` -/
  isSniStateOK : Bool
  /-- `negotiatedInfo.alpnSelected` -/
  alpnSelected : Option Bytes
deriving DecidableEq, Repr

/-- Embeds `DealResumeServerName` (recv_client_hello.c:614): compares the
stored session host name against the ClientHello `server_name` extension
during resumption.  Returns the updated context and an optional error (the
function sends no alert itself). -/
def DealResumeServerName (env : ResumeEnv) (ctx : ResumeCtx) (ch : CHResume)
    (serverName : Bytes) : ResumeCtx × Option HErr :=
  if HITLS_VERSION_TLS13 ≤ ctx.negoVersion ∧ ctx.negoVersion ≠ HITLS_VERSION_DTLS12 then
    (ctx, none)
  else if ctx.haveGlobalConfig ∧ ¬ctx.sniDealCbSet ∧ serverName.length = 0 then
    ({ ctx with isSniStateOK := false }, none)
  else if serverName.length ≠ 0 ∧ ¬ch.haveServerName then
    ({ ctx with isSniStateOK := false }, some HErr.sniUnrecognizedName)
  else if ch.serverName.length ≠ serverName.length ∨ ¬env.sniCaseEq ch.serverName serverName then
    ({ ctx with isSniStateOK := false }, some HErr.sniUnrecognizedName)
  else (ctx, none)

/-- Embeds `ServerCheckResumeSni` (recv_client_hello.c:737): a host-name
mismatch abandons the resumption candidate (the session is dropped) but never
fails the handshake. -/
def ServerCheckResumeSni (env : ResumeEnv) (ctx : ResumeCtx) (ch : CHResume)
    (sess : Option SessionSt) : ResumeCtx × Option SessionSt :=
  match sess with
  | none => (ctx, none)
  | some s =>
    if ctx.maxVersion = HITLS_VERSION_TLCP11 then (ctx, some s)
    else
      match DealResumeServerName env ctx ch s.hostName with
      | (ctx', none) => (ctx', some s)
      | (ctx', some _) => (ctx', none)

/-- Embeds `ResumeCheckExtendedMasterScret` (recv_client_hello.c:769), the
RFC 7627 §5.3 matrix for resumption with/without the extended-master-secret
extension. -/
def ResumeCheckExtendedMasterScret (env : ResumeEnv) (ctx : ResumeCtx) (ch : CHResume)
    (sess : Option SessionSt) : Except (HErr × AlertMsg) (ResumeCtx × Option SessionSt) :=
  match sess with
  | none => Except.ok (ctx, none)
  | some s =>
    if ctx.maxVersion = HITLS_VERSION_TLCP11 then Except.ok (ctx, some s)
    else if s.haveExtMasterSecret then
      if ¬ch.haveExtendedMasterSecret then
        Except.error (HErr.invalidExtendedMasterSecret, fatalAlert AlertDescr.handshakeFailure)
      else
        Except.ok (ServerCheckResumeSni env { ctx with isExtendedMasterSecret := true } ch (some s))
    else
      if ch.haveExtendedMasterSecret then
        Except.ok (ServerCheckResumeSni env
          { ctx with isExtendedMasterSecret := ch.haveExtendedMasterSecret } ch none)
      else if ctx.isSupportExtendMasterSecret then
        Except.error (HErr.invalidExtendedMasterSecret, fatalAlert AlertDescr.handshakeFailure)
      else
        Except.ok (ServerCheckResumeSni env
          { ctx with isExtendedMasterSecret := ch.haveExtendedMasterSecret } ch (some s))

/-- Actions against the session store performed while processing a
ClientHello; used to observe which lookup the server attempts. -/
inductive ResumeAction where
  | findBySessionId (id : Bytes)
  | decryptTicketAct (ticket : Bytes)
deriving DecidableEq, Repr

/-- Embeds `ServerCheckResumeTicket` (recv_client_hello.c:795): ticket-based
resumption.  Also reports the session-store actions performed. -/
def ServerCheckResumeTicket (env : ResumeEnv) (ctx : ResumeCtx) (ch : CHResume) :
    List ResumeAction × Except (HErr × AlertMsg) ResumeCtx :=
  ([ResumeAction.decryptTicketAct ch.ticket],
   match env.decryptTicket ch.ticket with
   | none => Except.error (HErr.decryptTicketFail, fatalAlert AlertDescr.internalError)
   | some (sessDec, isTicketExpect) =>
     let ctx1 := { ctx with isTicket := isTicketExpect }
     match ResumeCheckExtendedMasterScret env ctx1 ch sessDec with
     | Except.error e => Except.error e
     | Except.ok (ctx2, sessOpt) =>
       match sessOpt with
       | none => Except.ok ctx2
       | some s =>
         if ¬s.valid then Except.ok { ctx2 with isTicket := true }
         else Except.ok { ctx2 with
           session := some { s with sessionId := ch.sessionId },
           isResume := true })

/-- Embeds `ServerCheckResume` (recv_client_hello.c:836): decides between
ticket-based and session-id-based resumption (or neither), reporting the
session-store actions performed. -/
def ServerCheckResume (env : ResumeEnv) (ctx : ResumeCtx) (ch : CHResume) :
    List ResumeAction × Except (HErr × AlertMsg) ResumeCtx :=
  let ctx0 := { ctx with isResume := false, isTicket := false }
  if ctx0.isRenegotiation ∧ ¬ctx0.isResumptionOnRenego then ([], Except.ok ctx0)
  else if ch.ticket.length = 0 then
    let ctx1 :=
      if ctx0.supportTicket ∧ ch.haveTicket then { ctx0 with isTicket := true } else ctx0
    let sess := env.sessMgrFind ch.sessionId
    ([ResumeAction.findBySessionId ch.sessionId],
     match ResumeCheckExtendedMasterScret env ctx1 ch sess with
     | Except.error e => Except.error e
     | Except.ok (ctx2, sessOpt) =>
       match sessOpt with
       | none => Except.ok ctx2
       | some s => Except.ok { ctx2 with session := some s, isResume := true })
  else if ctx0.supportTicket then ServerCheckResumeTicket env ctx0 ch
  else ([], Except.ok ctx0)

/-- Embeds `ServerCmpSessionIdCtx` (recv_client_hello.c:676): compares the
session's session-id context against the locally configured one. -/
def ServerCmpSessionIdCtx (cfgIdCtx sessIdCtx : Bytes) : Bool :=
  if sessIdCtx.length ≠ cfgIdCtx.length then false
  else if sessIdCtx.length ≠ 0 ∧ sessIdCtx ≠ cfgIdCtx then false
  else true

/-- Embeds `ServerCheckResumeCipherSuite` (recv_client_hello.c:662): the
resumed session's cipher suite must appear in the offered list. -/
def ServerCheckResumeCipherSuite (ch : CHResume) (cipherSuite : Nat) : Except HErr Unit :=
  if cipherSuite ∈ ch.cipherSuites then Except.ok ()
  else Except.error HErr.illegalCipherSuite

/-- Embeds `DealResumeAlpnEx` (recv_client_hello.c:606). -/
def DealResumeAlpnEx (env : ResumeEnv) (ctx : ResumeCtx) (ch : CHResume) :
    Except (HErr × AlertMsg) ResumeCtx :=
  if ch.haveAlpn then
    match ServerSelectAlpnProtocol ⟨env.alpnSelectCb, ctx.alpnSelected⟩ ch.alpnList with
    | Except.ok a => Except.ok { ctx with alpnSelected := a.alpnSelected }
    | Except.error e => Except.error e
  else Except.ok ctx

/-- Embeds `ServerCheckResumeParam` (recv_client_hello.c:698): validates an
accepted resumption candidate (`sess` stands for `ctx->session`). -/
def ServerCheckResumeParam (env : ResumeEnv) (ctx : ResumeCtx) (ch : CHResume)
    (sess : SessionSt) : Except (HErr × AlertMsg) ResumeCtx :=
  if ¬ServerCmpSessionIdCtx ctx.sessionIdCtx sess.sessionIdCtx then
    Except.error (HErr.sessionIdCtxIllegal, fatalAlert AlertDescr.illegalParameter)
  else if ctx.negoVersion ≠ sess.version then
    Except.error (HErr.illegalVersion, fatalAlert AlertDescr.protocolVersion)
  else
    match ServerCheckResumeCipherSuite ch sess.cipherSuite with
    | Except.error e => Except.error (e, fatalAlert AlertDescr.illegalParameter)
    | Except.ok _ =>
      if ¬env.suiteKnown sess.cipherSuite then
        Except.error (HErr.getCipherSuiteFail, fatalAlert AlertDescr.internalError)
      else DealResumeAlpnEx env ctx ch

/-- A baseline environment for concrete resumption scenarios. -/
def resumeEnvBasic : ResumeEnv :=
  { sessMgrFind := fun _ => none, decryptTicket := fun _ => some (none, false),
    sniCaseEq := fun a b => a == b, suiteKnown := fun _ => true, alpnSelectCb := none }

/-- A baseline resumable session for concrete scenarios. -/
def sessionBase : SessionSt :=
  { version := HITLS_VERSION_TLS12, cipherSuite := 60, sessionIdCtx := [],
    hostName := [], haveExtMasterSecret := true, valid := true, sessionId := [1] }

/-- A baseline server context for concrete resumption scenarios. -/
def resumeCtxBase : ResumeCtx :=
  { negoVersion := HITLS_VERSION_TLS12, maxVersion := HITLS_VERSION_TLS12,
    isRenegotiation := false, isResumptionOnRenego := false, supportTicket := true,
    isSupportExtendMasterSecret := false, haveGlobalConfig := false, sniDealCbSet := false,
    sessionIdCtx := [], session := some sessionBase, isResume := false, isTicket := false,
    isExtendedMasterSecret := false, isSniStateOK := false, alpnSelected := none }

/-- A baseline ClientHello for concrete resumption scenarios. -/
def chResumeBase : CHResume :=
  { sessionId := [1], cipherSuites := [60], haveTicket := false, ticket := [],
    haveExtendedMasterSecret := true, haveServerName := false, serverName := [],
    haveAlpn := false, alpnList := [] }

/-! ## Version negotiation without `supported_versions`
(`ServerSelectNegoVersion`, `CheckVersion`) -/

/-- Embeds `ServerSelectNegoVersion` (recv_client_hello.c:439).
`hsVersionIsDtls` abstracts `IS_DTLS_VERSION(HS_GetVersion(ctx))`, `secCheck`
abstracts `SECURITY_SslCheck(..., HITLS_SECURITY_SECOP_VERSION, ...)`. -/
def ServerSelectNegoVersion (hsVersionIsDtls : Bool) (secCheck : Nat → Bool)
    (helloVersion minVersion maxVersion : Nat) : Except (HErr × AlertMsg) Nat :=
  let legacyVersion :=
    if HITLS_VERSION_TLS13 < helloVersion ∧ ¬hsVersionIsDtls then HITLS_VERSION_TLS12
    else helloVersion
  if isDtlsVer legacyVersion then
    if minVersion < legacyVersion then
      Except.error (HErr.unsupportVersion, fatalAlert AlertDescr.protocolVersion)
    else
      let nego := if legacyVersion < maxVersion then maxVersion else legacyVersion
      if secCheck nego then Except.ok nego
      else Except.error (HErr.unsecureVersion, fatalAlert AlertDescr.insufficientSecurity)
  else
    if legacyVersion < minVersion then
      Except.error (HErr.unsupportVersion, fatalAlert AlertDescr.protocolVersion)
    else
      let nego := if maxVersion < legacyVersion then maxVersion else legacyVersion
      if secCheck nego then Except.ok nego
      else Except.error (HErr.unsecureVersion, fatalAlert AlertDescr.insufficientSecurity)

/-- Embeds `CheckVersion` (recv_client_hello.c:1769), used by the TLS 1.3
entry when the ClientHello has no `supported_versions` extension. -/
def CheckVersion (version minVersion maxVersion : Nat) : Except HErr Nat :=
  let v :=
    if HITLS_VERSION_TLS13 ≤ version ∧ ¬isDtlsVer maxVersion then HITLS_VERSION_TLS12
    else version
  if (HITLS_VERSION_SSL30 < v ∨ v = HITLS_VERSION_TLCP11) ∧ minVersion ≤ v ∧ v ≤ maxVersion then
    Except.ok v
  else Except.error HErr.unsupportVersion

/-- Embeds the no-`supported_versions` arm of `SelectVersion`
(recv_client_hello.c:1823): on `CheckVersion` failure a fatal
`protocol_version` alert is sent. -/
def SelectVersionWithoutSupportedVersions (minVersion maxVersion helloVersion : Nat) :
    Except (HErr × AlertMsg) Nat :=
  match CheckVersion helloVersion minVersion maxVersion with
  | Except.ok v => Except.ok v
  | Except.error e => Except.error (e, fatalAlert AlertDescr.protocolVersion)

/-! ## TLCP ClientKeyExchange encoding (`PackClientKxMsgNamedCurve`) -/

/-- Modelled from the spec: the `named_curve` curve-type byte of the legacy
ECParameters wire format (RFC 4492); the `HITLS_EC_CURVE_TYPE_NAMED_CURVE`
constant lives in headers outside `src/`. -/
def HITLS_EC_CURVE_TYPE_NAMED_CURVE : Nat := 3

/-- Modelled from the spec: the named-group identifier of curve SM2 (RFC
8998); the `HITLS_EC_GROUP_SM2` constant lives in headers outside `src/`. -/
def HITLS_EC_GROUP_SM2 : Nat := 41

/-- Modelled from the spec: `BSL_Uint16ToByte` (bsl_bytes.h, not under
`src/`) writes a 16-bit value in network byte order, high byte first
(spec §4.1: `curve_id_hi || curve_id_lo`). -/
def BSL_Uint16ToByte (v : Nat) : Bytes :=
  [v / 256 % 256, v % 256]

/-- External collaborators of the ClientKeyExchange encoder. -/
structure PackEnv where
  /-- `HS_GetNamedCurvePubkeyLen` -/
  namedCurvePubkeyLen : Nat → Nat
  /-- the bytes produced by `SAL_CRYPT_EncodeEcdhPubKey`; `none` = failure -/
  encodeEcdhPubKey : Option Bytes

/-- Embeds `PackClientKxMsgNamedCurve` (pack_client_key_exchange.c:34).
Returns the bytes written to the output buffer. -/
def PackClientKxMsgNamedCurve (env : PackEnv) (version namedcurve bufLen : Nat) :
    Except HErr Bytes :=
  let pubKeyLen := env.namedCurvePubkeyLen namedcurve
  if pubKeyLen = 0 then Except.error HErr.packInvalidKxPubkeyLength
  else if bufLen < 1 + pubKeyLen then Except.error HErr.packNotEnoughBufLength
  else if version = HITLS_VERSION_TLCP11 ∧ bufLen < 1 + pubKeyLen + 1 + 2 then
    Except.error HErr.packNotEnoughBufLength
  else
    let hdr : Bytes :=
      if version = HITLS_VERSION_TLCP11 then
        HITLS_EC_CURVE_TYPE_NAMED_CURVE :: BSL_Uint16ToByte HITLS_EC_GROUP_SM2
      else []
    match env.encodeEcdhPubKey with
    | none => Except.error HErr.cryptErrEncodeEcdhKey
    | some pt =>
      if pt.length ≠ pubKeyLen then Except.error HErr.cryptErrEncodeEcdhKey
      else Except.ok (hdr ++ pt.length % 256 :: pt)

/-- Concrete encoder environment for the C8 witness: a 3-byte point. -/
def packEnvSm2 : PackEnv :=
  { namedCurvePubkeyLen := fun _ => 3, encodeEcdhPubKey := some [4, 7, 9] }

/-! ## TLS 1.3 second ClientHello after HelloRetryRequest
(`Tls13ServerCheckSecondClientHello`, `ServerCheckKeyShare`) -/

/-- One entry of the `key_share` extension. -/
structure KeyShareEntry where
  group : Nat
  keyExchange : Bytes
deriving DecidableEq, Repr

/-- The slice of a TLS 1.3 ClientHello used by the HRR checks. -/
structure CH13 where
  cipherSuites : List Nat
  sessionId : Bytes
  /-- `extension.flag.haveKeyShare` -/
  haveKeyShare : Bool
  /-- parsed `key_share` entries; `[]` models a NULL `keyShare` pointer (the
  parser leaves the pointer NULL for an empty extension) -/
  keyShare : List KeyShareEntry
  /-- `extension.content.supportedGroups` -/
  supportedGroups : List Nat
  /-- `extension.flag.havePointFormats` -/
  havePointFormats : Bool
  /-- `extension.content.pointFormats` -/
  pointFormats : Bytes
deriving DecidableEq, Repr

/-- The slice of `TLS_Ctx`/`HS_Ctx` used by the TLS 1.3 HRR checks. -/
structure Hs13Ctx where
  /-- `hsCtx->haveHrr` -/
  haveHrr : Bool
  /-- `hsCtx->firstClientHello` -/
  firstClientHello : Option CH13
  /-- `config.tlsConfig.groups` -/
  cfgGroups : List Nat
  /-- `config.tlsConfig.isSupportServerPreference` -/
  isSupportServerPreference : Bool
  /-- `negotiatedInfo.version` -/
  negoVersion : Nat
  /-- `hsCtx->kxCtx->keyExchParam.share.group` -/
  shareGroup : Nat
  /-- `hsCtx->kxCtx->keyExchParam.ecdh.curveParams.param.namedcurve` -/
  curveParamsNamedcurve : Nat
  /-- `negotiatedInfo.negotiatedGroup` -/
  negotiatedGroup : Nat
deriving DecidableEq, Repr

/-- External checks used during curve selection. -/
structure CurveEnv where
  /-- `SECURITY_SslCheck(..., HITLS_SECURITY_SECOP_CURVE_SHARED, ...)` -/
  curveSecCheck : Nat → Bool
  /-- `GroupConformToVersion(version, group)` -/
  groupConformToVersion : Nat → Nat → Bool

/-- Embeds `ServerSelectCurveId` (recv_client_hello.c:86): first group in the
preference list that also appears in the other list and passes the security
and version checks; `0` when none is found. -/
def ServerSelectCurveId (env : CurveEnv) (ctx : Hs13Ctx) (ch : CH13) : Nat :=
  let prefGroups :=
    if ctx.isSupportServerPreference then ctx.cfgGroups else ch.supportedGroups
  let normalGroups :=
    if ctx.isSupportServerPreference then ch.supportedGroups else ctx.cfgGroups
  match prefGroups.find? (fun p =>
      normalGroups.contains p && env.curveSecCheck p &&
      env.groupConformToVersion ctx.negoVersion p) with
  | some p => p
  | none => 0

/-- Embeds `ServerCheckPointFormats` (recv_client_hello.c:58). -/
def ServerCheckPointFormats (ch : CH13) : Except HErr Unit :=
  if ¬ch.havePointFormats then Except.ok ()
  else if 0 ∈ ch.pointFormats then Except.ok ()
  else Except.error HErr.unsupportCipherSuite

/-- Embeds `ProcessEcdheCipherSuite` (recv_client_hello.c:222) for the
non-TLCP versions (the TLCP branch requires the SM2 group in the local
list and skips the extension checks). -/
def ProcessEcdheCipherSuite (env : CurveEnv) (ctx : Hs13Ctx) (ch : CH13) :
    Except HErr Hs13Ctx :=
  if ctx.cfgGroups.length = 0 then Except.error HErr.unsupportCipherSuite
  else if ctx.negoVersion = HITLS_VERSION_TLCP11 then
    if ¬ctx.cfgGroups.contains HITLS_EC_GROUP_SM2 then
      Except.error HErr.unsupportCipherSuite
    else Except.ok { ctx with curveParamsNamedcurve := HITLS_EC_GROUP_SM2 }
  else
    match ServerCheckPointFormats ch with
    | Except.error e => Except.error e
    | Except.ok _ =>
      let selected := ServerSelectCurveId env ctx ch
      if selected = 0 then Except.error HErr.unsupportCipherSuite
      else if ctx.negoVersion = HITLS_VERSION_TLS13 then
        Except.ok { ctx with shareGroup := selected, negotiatedGroup := selected }
      else
        Except.ok { ctx with curveParamsNamedcurve := selected, negotiatedGroup := selected }

/-- Embeds `ServerCheckKeyShare` (recv_client_hello.c:1211): after an HRR the
`key_share` must hold exactly one entry whose group is the selected group. -/
def ServerCheckKeyShare (env : CurveEnv) (ctx : Hs13Ctx) (ch : CH13) :
    Except (HErr × AlertMsg) Hs13Ctx :=
  if ¬ch.haveKeyShare ∨ ch.supportedGroups.length = 0 then
    Except.error (HErr.handshakeFailure, fatalAlert AlertDescr.handshakeFailure)
  else
    match ProcessEcdheCipherSuite env ctx ch with
    | Except.error _ =>
      Except.error (HErr.handshakeFailure, fatalAlert AlertDescr.handshakeFailure)
    | Except.ok ctx1 =>
      if ctx1.haveHrr then
        match ch.keyShare with
        | [e] =>
          if e.group ≠ ctx1.shareGroup then
            Except.error (HErr.illegalSelectedGroup, fatalAlert AlertDescr.illegalParameter)
          else Except.ok ctx1
        | _ =>
          Except.error (HErr.illegalSelectedGroup, fatalAlert AlertDescr.illegalParameter)
      else Except.ok ctx1

/-- Embeds `Tls13ServerCheckSecondClientHello` (recv_client_hello.c:1658):
after an HRR the second ClientHello's cipher-suite list must equal the first
one's; without an HRR the first ClientHello is recorded. -/
def Tls13ServerCheckSecondClientHello (ctx : Hs13Ctx) (ch : CH13) :
    Except (HErr × AlertMsg) Hs13Ctx :=
  if ctx.haveHrr then
    match ctx.firstClientHello with
    | some first =>
      if first.cipherSuites.length ≠ ch.cipherSuites.length ∨
          first.cipherSuites ≠ ch.cipherSuites then
        Except.error (HErr.illegalCipherSuite, fatalAlert AlertDescr.illegalParameter)
      else Except.ok ctx
    | none =>
      -- unreachable: `haveHrr` implies a recorded first ClientHello
      Except.error (HErr.internalException, fatalAlert AlertDescr.internalError)
  else
    match ctx.firstClientHello with
    | some _ => Except.error (HErr.internalException, fatalAlert AlertDescr.internalError)
    | none => Except.ok { ctx with firstClientHello := some ch }

/-- Concrete environment for the C2 scenarios. -/
def curveEnvAll : CurveEnv :=
  { curveSecCheck := fun _ => true, groupConformToVersion := fun _ _ => true }

/-- The first ClientHello of the C2 counterexample scenario. -/
def ch13First : CH13 :=
  { cipherSuites := [0x1301], sessionId := [1], haveKeyShare := true,
    keyShare := [], supportedGroups := [29], havePointFormats := false,
    pointFormats := [], }

/-- The second ClientHello of the C2 counterexample scenario: identical except
for a different (non-echoed) `session_id` and a now-populated key share. -/
def ch13Second : CH13 :=
  { cipherSuites := [0x1301], sessionId := [2], haveKeyShare := true,
    keyShare := [{ group := 29, keyExchange := [1, 2, 3] }], supportedGroups := [29],
    havePointFormats := false, pointFormats := [] }

/-- Server context after having sent the HelloRetryRequest in the C2
counterexample scenario. -/
def hs13CtxHrr : Hs13Ctx :=
  { haveHrr := true, firstClientHello := some ch13First, cfgGroups := [29],
    isSupportServerPreference := false, negoVersion := HITLS_VERSION_TLS13,
    shareGroup := 0, curveParamsNamedcurve := 0, negotiatedGroup := 0 }

/-! ## TLS 1.3 PSK selection and binder validation
(`ServerSelectPskAndCheckBinder`, `CompareBinder`, `ServerFindPsk`) -/

/-- `HS_MAX_BINDER_SIZE` (recv_client_hello.c:36). -/
def HS_MAX_BINDER_SIZE : Nat := 64

/-- Modelled from the spec: the identifier of the SHA-256 hash algorithm
(`HITLS_HASH_SHA_256`, defined in headers outside `src/`; only its identity
matters here). -/
def HITLS_HASH_SHA_256 : Nat := 6

/-- One node of the client's `pre_shared_key.identities` list. -/
structure PskNode where
  identity : Bytes
  obfuscatedTicketAge : Nat
  binder : Bytes
deriving DecidableEq, Repr, Inhabited

/-- The slice of a TLS 1.3 PSK session used by the selection path. -/
structure Sess13 where
  /-- `HITLS_SESS_GetProtocolVersion` -/
  version : Nat
  /-- `HITLS_SESS_GetCipherSuite` -/
  cipherSuite : Nat
  /-- `HITLS_SESS_GetMasterKey` -/
  masterKey : Bytes
  /-- `HITLS_SESS_GetSessionIdCtx` -/
  sessionIdCtx : Bytes
deriving DecidableEq, Repr

/-- Result of the `pskFindSessionCb` user callback. -/
inductive FindSessionOutcome where
  | cbFail
  | found (s : Sess13)
  | notFound
deriving Repr

/-- External collaborators of the TLS 1.3 PSK selection path. -/
structure Psk13Env where
  /-- `config.tlsConfig.pskFindSessionCb`; `none` = not registered -/
  pskFindSessionCb : Option (Bytes → FindSessionOutcome)
  /-- `config.tlsConfig.pskServerCb`; `none` = not registered; the returned
  bytes are the PSK (`[]` = identity unknown) -/
  pskServerCb : Option (Bytes → Bytes)
  /-- `HS_PSK_MAX_LEN` (hs header outside `src/`) -/
  maxPskLen : Nat
  /-- `SESSMGR_DecryptSessionTicket`; outer `none` models a failing return -/
  decryptTicket : Bytes → Option (Option Sess13 × Bool)
  /-- `CFG_GetCipherSuiteInfo(...)->hashAlg`; `none` = unknown suite -/
  suiteHash : Nat → Option Nat
  /-- `SESS_CheckObfuscatedTicketAge(sess, now, age)` -/
  ageOk : Sess13 → Nat → Bool
  /-- `HS_GetBinderLen(NULL, hashAlg)` -/
  binderLen : Nat → Nat
  /-- `VERIFY_CalcPskBinder(isExternalPsk, psk, truncated-hello-bytes)` -/
  calcBinder : Bool → Bytes → Bytes → Bytes

/-- The slice of `TLS_Ctx` used by the TLS 1.3 PSK selection path. -/
structure Psk13Ctx where
  /-- `negotiatedInfo.cipherSuiteInfo.hashAlg` -/
  negoHashAlg : Nat
  /-- `config.tlsConfig.sessionIdCtx` -/
  sessionIdCtx : Bytes
  /-- `negotiatedInfo.isResume` -/
  isResume : Bool
  /-- `ctx->session` -/
  session : Option Sess13
  /-- `hsCtx->kxCtx->pskInfo13.psk` -/
  pskInfoPsk : Option Bytes
  /-- `hsCtx->kxCtx->pskInfo13.selectIndex` -/
  pskSelectIndex : Nat
deriving DecidableEq, Repr

/-- Embeds `GetPskFromSession` (recv_client_hello.c:1313): extract the
session's master key into a `HS_PSK_MAX_LEN` buffer. -/
def GetPskFromSession (env : Psk13Env) (s : Sess13) : Except (HErr × AlertMsg) Bytes :=
  if env.maxPskLen < s.masterKey.length then
    Except.error (HErr.internalException, fatalAlert AlertDescr.internalError)
  else Except.ok s.masterKey

/-- Embeds `PskFindSession` (recv_client_hello.c:1330). -/
def PskFindSession (env : Psk13Env) (identity : Bytes) :
    Except (HErr × AlertMsg) (Option Sess13) :=
  match env.pskFindSessionCb with
  | none => Except.ok none
  | some cb =>
    match cb identity with
    | FindSessionOutcome.cbFail =>
      Except.error (HErr.pskFindSessionFail, fatalAlert AlertDescr.internalError)
    | FindSessionOutcome.found s => Except.ok (some s)
    | FindSessionOutcome.notFound => Except.ok none

/-- Embeds `GetPskByIdentity` (recv_client_hello.c:1347). -/
def GetPskByIdentity (env : Psk13Env) (identity : Bytes) :
    Except (HErr × AlertMsg) Bytes :=
  match env.pskServerCb with
  | none => Except.ok []
  | some cb =>
    let psk := cb identity
    if env.maxPskLen < psk.length then
      Except.error (HErr.illegalPskLen, fatalAlert AlertDescr.internalError)
    else Except.ok psk

/-- Embeds `IsPSKValid` (recv_client_hello.c:1387). -/
def IsPSKValid (env : Psk13Env) (ctx : Psk13Ctx) (s : Sess13) : Bool :=
  if s.version ≠ HITLS_VERSION_TLS13 then false
  else
    match env.suiteHash s.cipherSuite with
    | none => false
    | some h => if h ≠ ctx.negoHashAlg then false else true

/-- Embeds `TLS13ServerProcessTicket` (recv_client_hello.c:1409): try to
decrypt the identity as a ticket; on a valid, matching session the PSK is the
session's master key and resumption state is entered. -/
def TLS13ServerProcessTicket (env : Psk13Env) (ctx : Psk13Ctx) (cur : PskNode) :
    Except (HErr × AlertMsg) (Bytes × Psk13Ctx) :=
  match env.decryptTicket cur.identity with
  | none => Except.error (HErr.decryptTicketFail, fatalAlert AlertDescr.internalError)
  | some (none, _) => Except.ok ([], ctx)
  | some (some pskSession, _) =>
    if ¬IsPSKValid env ctx pskSession ∨ ¬env.ageOk pskSession cur.obfuscatedTicketAge then
      Except.ok ([], ctx)
    else if ¬ServerCmpSessionIdCtx ctx.sessionIdCtx pskSession.sessionIdCtx then
      Except.error (HErr.sessionIdCtxIllegal, fatalAlert AlertDescr.illegalParameter)
    else
      match GetPskFromSession env pskSession with
      | Except.error e => Except.error e
      | Except.ok psk =>
        if psk.length = 0 then Except.ok ([], ctx)
        else Except.ok (psk, { ctx with session := some pskSession, isResume := true })

/-- Embeds `ServerFindPsk` (recv_client_hello.c:1466): resolve one offered
identity (user session callback, then external-PSK callback when the
negotiated hash is SHA-256, then ticket decryption).  An empty PSK means the
identity did not resolve. -/
def ServerFindPsk (env : Psk13Env) (ctx : Psk13Ctx) (cur : PskNode) :
    Except (HErr × AlertMsg) (Bytes × Psk13Ctx) :=
  let ctx0 := { ctx with isResume := false }
  match PskFindSession env cur.identity with
  | Except.error e => Except.error e
  | Except.ok (some pskSession) =>
    if ¬IsPSKValid env ctx0 pskSession then Except.ok ([], ctx0)
    else
      match GetPskFromSession env pskSession with
      | Except.error e => Except.error e
      | Except.ok psk => Except.ok (psk, ctx0)
  | Except.ok none =>
    if ctx0.negoHashAlg = HITLS_HASH_SHA_256 then
      match GetPskByIdentity env cur.identity with
      | Except.error e => Except.error e
      | Except.ok psk =>
        if 0 < psk.length then Except.ok (psk, ctx0)
        else TLS13ServerProcessTicket env ctx0 cur
    else TLS13ServerProcessTicket env ctx0 cur

/-- Embeds `Tls13ServerSetPskInfo` (recv_client_hello.c:1373). -/
def Tls13ServerSetPskInfo (ctx : Psk13Ctx) (psk : Bytes) (index : Nat) : Psk13Ctx :=
  { ctx with pskInfoPsk := some psk, pskSelectIndex := index }

/-- Embeds `CompareBinder` (recv_client_hello.c:1516): recompute the binder
over the first `truncateHelloLen` bytes of the raw ClientHello (`msgBuf`) and
compare with the received binder. -/
def CompareBinder (env : Psk13Env) (ctx : Psk13Ctx) (pskNode : PskNode) (psk : Bytes)
    (msgBuf : Bytes) (truncateHelloLen : Nat) : Except HErr Unit :=
  let hashAlg := ctx.negoHashAlg
  let isExternalPsk := ¬ctx.isResume
  let binderLen := env.binderLen hashAlg
  if binderLen = 0 ∨ binderLen ≠ pskNode.binder.length ∨ HS_MAX_BINDER_SIZE < binderLen then
    Except.error HErr.internalException
  else
    let computed := env.calcBinder isExternalPsk psk (msgBuf.take truncateHelloLen)
    if computed ≠ pskNode.binder then Except.error HErr.internalException
    else Except.ok ()

/-- Result of the PSK selection loop: the returned state or error, plus the
indices whose binder was recomputed and compared (for observation). -/
structure PskSelectResult where
  out : Except (HErr × AlertMsg) Psk13Ctx
  checkedBinders : List Nat

/-- The loop body of `ServerSelectPskAndCheckBinder`
(recv_client_hello.c:1548): walk the offered identities in order; the first
one that resolves is selected, its binder alone is validated, and a mismatch
sends a fatal `decrypt_error` alert. -/
def ServerSelectPskAndCheckBinderLoop (env : Psk13Env) (msgBuf : Bytes) (truncLen : Nat) :
    Psk13Ctx → List PskNode → Nat → PskSelectResult
  | ctx, [], _ => { out := Except.ok ctx, checkedBinders := [] }
  | ctx, cur :: rest, index =>
    match ServerFindPsk env ctx cur with
    | Except.error e => { out := Except.error e, checkedBinders := [] }
    | Except.ok (psk, ctx1) =>
      if psk.length = 0 then
        ServerSelectPskAndCheckBinderLoop env msgBuf truncLen ctx1 rest (index + 1)
      else
        match CompareBinder env (Tls13ServerSetPskInfo ctx1 psk index) cur psk msgBuf
            truncLen with
        | Except.error e =>
          { out := Except.error (e, fatalAlert AlertDescr.decryptError),
            checkedBinders := [index] }
        | Except.ok _ =>
          { out := Except.ok (Tls13ServerSetPskInfo ctx1 psk index),
            checkedBinders := [index] }

/-- Embeds `ServerSelectPskAndCheckBinder` (recv_client_hello.c:1548). -/
def ServerSelectPskAndCheckBinder (env : Psk13Env) (ctx : Psk13Ctx) (msgBuf : Bytes)
    (truncLen : Nat) (offeredPsks : List PskNode) : PskSelectResult :=
  ServerSelectPskAndCheckBinderLoop env msgBuf truncLen ctx offeredPsks 0

/-- Concrete environment for the C1 witness: the external-PSK callback knows
identity `[2]` only, tickets never decrypt to a session, binders are two
bytes `[7, 7]`. -/
def psk13EnvW : Psk13Env :=
  { pskFindSessionCb := none,
    pskServerCb := some fun id => if id = [2] then [9, 9] else [],
    maxPskLen := 64,
    decryptTicket := fun _ => some (none, false),
    suiteHash := fun _ => some HITLS_HASH_SHA_256,
    ageOk := fun _ _ => true,
    binderLen := fun _ => 2,
    calcBinder := fun _ _ _ => [7, 7] }

/-- Concrete context for the C1 witness. -/
def psk13CtxW : Psk13Ctx :=
  { negoHashAlg := HITLS_HASH_SHA_256, sessionIdCtx := [], isResume := false,
    session := none, pskInfoPsk := none, pskSelectIndex := 0 }

/-- Offered identities for the C1 witness: `[1]` does not resolve, `[2]`
resolves with a matching binder. -/
def pskNodesW : List PskNode :=
  [{ identity := [1], obfuscatedTicketAge := 0, binder := [5, 5] },
   { identity := [2], obfuscatedTicketAge := 0, binder := [7, 7] }]

/-! ## Theorems -/

/-- Helper: `DealResumeServerName` either keeps the context, or clears
`isSniStateOK`, optionally with an unrecognised-name error. -/
theorem dealResumeServerName_shape (env : ResumeEnv) (ctx : ResumeCtx) (ch : CHResume)
    (sn : Bytes) :
    DealResumeServerName env ctx ch sn = (ctx, none) ∨
    DealResumeServerName env ctx ch sn = ({ ctx with isSniStateOK := false }, none) ∨
    DealResumeServerName env ctx ch sn =
      ({ ctx with isSniStateOK := false }, some HErr.sniUnrecognizedName) := by
  unfold DealResumeServerName
  split_ifs <;> simp

/-- Claim C9: a TLS 1.3 server accepts the compression-methods list iff it is
exactly the single byte `0`, failing with a fatal `illegal_parameter` alert
otherwise, while the TLS ≤1.2 check accepts iff the byte `0` appears anywhere
in the list (failing with the same alert otherwise). -/
theorem compression_methods_checked (l : Bytes) :
    Tls13ServerCheckCompressionMethods l =
      (if l = [0] then Except.ok ()
       else Except.error (HErr.invalidCompressionMethod, fatalAlert AlertDescr.illegalParameter)) ∧
    ServerCheckCompressionMethods l =
      (if 0 ∈ l then Except.ok ()
       else Except.error (HErr.invalidCompressionMethod, fatalAlert AlertDescr.illegalParameter)) := by
  refine ⟨?_, ?_⟩
  · match l with
    | [] => rfl
    | [a] =>
      by_cases h : a = 0
      · subst h; rfl
      · simp [Tls13ServerCheckCompressionMethods, h]
    | a :: b :: t =>
      simp [Tls13ServerCheckCompressionMethods]
  · unfold ServerCheckCompressionMethods
    split <;> simp_all

/-- Claim C7: the server newly negotiates Encrypt-then-MAC only when the
ClientHello offers the extension and the selected cipher suite is CBC; and a
renegotiation ClientHello that omits the extension after EtM was negotiated
aborts with a fatal `handshake_failure` alert. -/
theorem etm_only_cbc_and_no_downgrade (ctx : EtmCtx) (haveEtm : Bool) :
    (ctx.isEncryptThenMac = false →
      ServerCheckEncryptThenMac ctx haveEtm = Except.ok true →
      haveEtm = true ∧ ctx.cipherType = CipherType.cbcCipher) ∧
    (ctx.isRenegotiation = true → ctx.isEncryptThenMac = true → haveEtm = false →
      ServerCheckEncryptThenMac ctx haveEtm =
        Except.error (HErr.encryptThenMacErr, fatalAlert AlertDescr.handshakeFailure)) := by
  constructor
  · intro hprev hok
    unfold ServerCheckEncryptThenMac at hok
    split at hok
    · exact absurd hok (by simp)
    · split at hok
      · simp [hprev] at hok
      · split at hok
        · simp [hprev] at hok
        · split at hok
          · next h => exact ⟨h.1, h.2⟩
          · exact absurd hok (by simp)
  · intro hr hprev hetm
    unfold ServerCheckEncryptThenMac
    rw [if_pos ⟨hr, hprev, by simp [hetm]⟩]

/-- Witness for C7 at concrete inputs. -/
theorem etm_only_cbc_and_no_downgrade_witness :
    (true = true ∧ etmCtxFresh.cipherType = CipherType.cbcCipher) ∧
    ServerCheckEncryptThenMac etmCtxRenego false =
      Except.error (HErr.encryptThenMacErr, fatalAlert AlertDescr.handshakeFailure) :=
  ⟨(etm_only_cbc_and_no_downgrade etmCtxFresh true).1 rfl rfl,
   (etm_only_cbc_and_no_downgrade etmCtxRenego false).2 rfl rfl rfl⟩

/-- Claim C6: with a registered ALPN callback, `OK` copies the chosen protocol
into the negotiated state, `NOACK` proceeds with the negotiated selection left
unchanged (so an unset selection stays unset), and any other callback result
sends a fatal `no_application_protocol` alert and fails. -/
theorem alpn_callback_dispatch (ctx : AlpnCtx) (cb : Bytes → AlpnCbResult) (l : Bytes) :
    ctx.alpnSelectCb = some cb →
    ((∀ p, cb l = AlpnCbResult.ok p →
        ServerSelectAlpnProtocol ctx l = Except.ok { ctx with alpnSelected := some p }) ∧
     (cb l = AlpnCbResult.noack →
        ServerSelectAlpnProtocol ctx l = Except.ok ctx) ∧
     (cb l = AlpnCbResult.fail →
        ServerSelectAlpnProtocol ctx l =
          Except.error (HErr.alpnProtocolNoMatch, fatalAlert AlertDescr.noApplicationProtocol))) := by
  intro hcb
  refine ⟨?_, ?_, ?_⟩ <;> intros <;>
    simp_all [ServerSelectAlpnProtocol]

/-- Witness for C6 at concrete inputs: all three callback outcomes. -/
theorem alpn_callback_dispatch_witness :
    ServerSelectAlpnProtocol alpnCtxOk [] =
      Except.ok { alpnCtxOk with alpnSelected := some [104, 50] } ∧
    ServerSelectAlpnProtocol alpnCtxNoack [] = Except.ok alpnCtxNoack ∧
    ServerSelectAlpnProtocol alpnCtxFail [] =
      Except.error (HErr.alpnProtocolNoMatch, fatalAlert AlertDescr.noApplicationProtocol) :=
  ⟨((alpn_callback_dispatch alpnCtxOk _ []) rfl).1 [104, 50] rfl,
   ((alpn_callback_dispatch alpnCtxNoack _ []) rfl).2.1 rfl,
   ((alpn_callback_dispatch alpnCtxFail _ []) rfl).2.2 rfl⟩

/-- Helper: when the host-name comparison raises no error, `ServerCheckResumeSni`
keeps the session and at most clears `isSniStateOK`. -/
theorem serverCheckResumeSni_of_deal_none (env : ResumeEnv) (ctx : ResumeCtx) (ch : CHResume)
    (s : SessionSt) (hT : ctx.maxVersion ≠ HITLS_VERSION_TLCP11)
    (hsni : (DealResumeServerName env ctx ch s.hostName).2 = none) :
    ∃ b, ServerCheckResumeSni env ctx ch (some s) = ({ ctx with isSniStateOK := b }, some s) := by
  rcases dealResumeServerName_shape env ctx ch s.hostName with hd | hd | hd
  · exact ⟨ctx.isSniStateOK, by simp [ServerCheckResumeSni, hT, hd]⟩
  · exact ⟨false, by simp [ServerCheckResumeSni, hT, hd]⟩
  · rw [hd] at hsni
    simp at hsni

/-- Claim C3: the RFC 7627 §5.3 EMS matrix during TLS ≤1.2 resumption:
original EMS / current no-EMS aborts (fatal `handshake_failure`); original
no-EMS / current EMS abandons resumption (session dropped) and continues with
EMS; both EMS resumes with EMS (session kept when the host-name check
passes); neither resumes without EMS only when the local configuration does
not require EMS, otherwise aborts. -/
theorem ems_resumption_matrix (env : ResumeEnv) (ctx : ResumeCtx) (ch : CHResume)
    (s : SessionSt) (hT : ctx.maxVersion ≠ HITLS_VERSION_TLCP11) :
    (s.haveExtMasterSecret = true → ch.haveExtendedMasterSecret = false →
      ResumeCheckExtendedMasterScret env ctx ch (some s) =
        Except.error (HErr.invalidExtendedMasterSecret, fatalAlert AlertDescr.handshakeFailure)) ∧
    (s.haveExtMasterSecret = false → ch.haveExtendedMasterSecret = true →
      ResumeCheckExtendedMasterScret env ctx ch (some s) =
        Except.ok ({ ctx with isExtendedMasterSecret := true }, none)) ∧
    (s.haveExtMasterSecret = true → ch.haveExtendedMasterSecret = true →
      (DealResumeServerName env { ctx with isExtendedMasterSecret := true } ch s.hostName).2 =
        none →
      ∃ b, ResumeCheckExtendedMasterScret env ctx ch (some s) =
        Except.ok ({ ctx with isExtendedMasterSecret := true, isSniStateOK := b }, some s)) ∧
    (s.haveExtMasterSecret = false → ch.haveExtendedMasterSecret = false →
      (ctx.isSupportExtendMasterSecret = true →
        ResumeCheckExtendedMasterScret env ctx ch (some s) =
          Except.error (HErr.invalidExtendedMasterSecret, fatalAlert AlertDescr.handshakeFailure)) ∧
      (ctx.isSupportExtendMasterSecret = false →
        (DealResumeServerName env { ctx with isExtendedMasterSecret := false } ch s.hostName).2 =
          none →
        ∃ b, ResumeCheckExtendedMasterScret env ctx ch (some s) =
          Except.ok ({ ctx with isExtendedMasterSecret := false, isSniStateOK := b }, some s))) := by
  refine ⟨?_, ?_, ?_, ?_⟩
  · intro h1 h2
    simp [ResumeCheckExtendedMasterScret, hT, h1, h2]
  · intro h1 h2
    simp [ResumeCheckExtendedMasterScret, ServerCheckResumeSni, hT, h1, h2]
  · intro h1 h2 hsni
    have h0 : ResumeCheckExtendedMasterScret env ctx ch (some s) =
        Except.ok (ServerCheckResumeSni env { ctx with isExtendedMasterSecret := true }
          ch (some s)) := by
      simp [ResumeCheckExtendedMasterScret, hT, h1, h2]
    obtain ⟨b, hb⟩ := serverCheckResumeSni_of_deal_none env
      { ctx with isExtendedMasterSecret := true } ch s hT hsni
    exact ⟨b, by rw [h0, hb]⟩
  · intro h1 h2
    constructor
    · intro hcfg
      simp [ResumeCheckExtendedMasterScret, hT, h1, h2, hcfg]
    · intro hcfg hsni
      have h0 : ResumeCheckExtendedMasterScret env ctx ch (some s) =
          Except.ok (ServerCheckResumeSni env { ctx with isExtendedMasterSecret := false }
            ch (some s)) := by
        simp [ResumeCheckExtendedMasterScret, hT, h1, h2, hcfg]
      obtain ⟨b, hb⟩ := serverCheckResumeSni_of_deal_none env
        { ctx with isExtendedMasterSecret := false } ch s hT hsni
      exact ⟨b, by rw [h0, hb]⟩

/-- Witness for C3 at concrete inputs: all four matrix rows. -/
theorem ems_resumption_matrix_witness :
    (ResumeCheckExtendedMasterScret resumeEnvBasic resumeCtxBase
        { chResumeBase with haveExtendedMasterSecret := false } (some sessionBase) =
      Except.error (HErr.invalidExtendedMasterSecret, fatalAlert AlertDescr.handshakeFailure)) ∧
    (ResumeCheckExtendedMasterScret resumeEnvBasic resumeCtxBase chResumeBase
        (some { sessionBase with haveExtMasterSecret := false }) =
      Except.ok ({ resumeCtxBase with isExtendedMasterSecret := true }, none)) ∧
    (∃ b, ResumeCheckExtendedMasterScret resumeEnvBasic resumeCtxBase chResumeBase
        (some sessionBase) =
      Except.ok ({ resumeCtxBase with isExtendedMasterSecret := true, isSniStateOK := b },
        some sessionBase)) ∧
    (ResumeCheckExtendedMasterScret resumeEnvBasic
        { resumeCtxBase with isSupportExtendMasterSecret := true }
        { chResumeBase with haveExtendedMasterSecret := false }
        (some { sessionBase with haveExtMasterSecret := false }) =
      Except.error (HErr.invalidExtendedMasterSecret, fatalAlert AlertDescr.handshakeFailure)) ∧
    (∃ b, ResumeCheckExtendedMasterScret resumeEnvBasic resumeCtxBase
        { chResumeBase with haveExtendedMasterSecret := false }
        (some { sessionBase with haveExtMasterSecret := false }) =
      Except.ok ({ resumeCtxBase with isExtendedMasterSecret := false, isSniStateOK := b },
        some { sessionBase with haveExtMasterSecret := false })) :=
  ⟨(ems_resumption_matrix resumeEnvBasic resumeCtxBase
      { chResumeBase with haveExtendedMasterSecret := false } sessionBase (by decide)).1 rfl rfl,
   (ems_resumption_matrix resumeEnvBasic resumeCtxBase chResumeBase
      { sessionBase with haveExtMasterSecret := false } (by decide)).2.1 rfl rfl,
   (ems_resumption_matrix resumeEnvBasic resumeCtxBase chResumeBase sessionBase
      (by decide)).2.2.1 rfl rfl (by rfl),
   ((ems_resumption_matrix resumeEnvBasic
      { resumeCtxBase with isSupportExtendMasterSecret := true }
      { chResumeBase with haveExtendedMasterSecret := false }
      { sessionBase with haveExtMasterSecret := false } (by decide)).2.2.2 rfl rfl).1 rfl,
   ((ems_resumption_matrix resumeEnvBasic resumeCtxBase
      { chResumeBase with haveExtendedMasterSecret := false }
      { sessionBase with haveExtMasterSecret := false } (by decide)).2.2.2 rfl rfl).2 rfl
      (by rfl)⟩

/-- Counterexample to C5 as stated: a resumption candidate whose protocol
version (TLS 1.2) differs from the negotiated version (TLS 1.1) makes the
server abort with an error and a fatal `protocol_version` alert — it does not
fall through to a full handshake. -/
theorem resume_param_mismatch_aborts :
    ServerCheckResumeParam resumeEnvBasic
      { resumeCtxBase with negoVersion := HITLS_VERSION_TLS11 } chResumeBase sessionBase =
      Except.error (HErr.illegalVersion, fatalAlert AlertDescr.protocolVersion) := by
  rfl

/-- Claim C5 (amended): when a TLS ≤1.2 server accepts a resumption
candidate, it checks the session-id context, protocol version, and that the
session's cipher suite is offered; a session-id-context or cipher-suite
mismatch aborts with a fatal `illegal_parameter` alert, a version mismatch
aborts with a fatal `protocol_version` alert (the server does not fall back
to a full handshake), and when all checks pass the handshake proceeds. -/
theorem resume_param_checks (env : ResumeEnv) (ctx : ResumeCtx) (ch : CHResume)
    (s : SessionSt) :
    (ServerCmpSessionIdCtx ctx.sessionIdCtx s.sessionIdCtx = false →
      ServerCheckResumeParam env ctx ch s =
        Except.error (HErr.sessionIdCtxIllegal, fatalAlert AlertDescr.illegalParameter)) ∧
    (ServerCmpSessionIdCtx ctx.sessionIdCtx s.sessionIdCtx = true →
      ctx.negoVersion ≠ s.version →
      ServerCheckResumeParam env ctx ch s =
        Except.error (HErr.illegalVersion, fatalAlert AlertDescr.protocolVersion)) ∧
    (ServerCmpSessionIdCtx ctx.sessionIdCtx s.sessionIdCtx = true →
      ctx.negoVersion = s.version → s.cipherSuite ∉ ch.cipherSuites →
      ServerCheckResumeParam env ctx ch s =
        Except.error (HErr.illegalCipherSuite, fatalAlert AlertDescr.illegalParameter)) ∧
    (ServerCmpSessionIdCtx ctx.sessionIdCtx s.sessionIdCtx = true →
      ctx.negoVersion = s.version → s.cipherSuite ∈ ch.cipherSuites →
      env.suiteKnown s.cipherSuite = true → ch.haveAlpn = false →
      ServerCheckResumeParam env ctx ch s = Except.ok ctx) := by
  refine ⟨?_, ?_, ?_, ?_⟩
  · intro h1
    simp [ServerCheckResumeParam, h1]
  · intro h1 h2
    simp [ServerCheckResumeParam, h1, h2]
  · intro h1 h2 h3
    simp [ServerCheckResumeParam, ServerCheckResumeCipherSuite, h1, h2, h3]
  · intro h1 h2 h3 h4 h5
    simp [ServerCheckResumeParam, ServerCheckResumeCipherSuite, DealResumeAlpnEx,
      h1, h2, h3, h4, h5]

/-- Witness for the amended C5 at concrete inputs: all four outcomes. -/
theorem resume_param_checks_witness :
    (ServerCheckResumeParam resumeEnvBasic resumeCtxBase chResumeBase
        { sessionBase with sessionIdCtx := [9] } =
      Except.error (HErr.sessionIdCtxIllegal, fatalAlert AlertDescr.illegalParameter)) ∧
    (ServerCheckResumeParam resumeEnvBasic
        { resumeCtxBase with negoVersion := HITLS_VERSION_TLS11 } chResumeBase sessionBase =
      Except.error (HErr.illegalVersion, fatalAlert AlertDescr.protocolVersion)) ∧
    (ServerCheckResumeParam resumeEnvBasic resumeCtxBase
        { chResumeBase with cipherSuites := [61] } sessionBase =
      Except.error (HErr.illegalCipherSuite, fatalAlert AlertDescr.illegalParameter)) ∧
    (ServerCheckResumeParam resumeEnvBasic resumeCtxBase chResumeBase sessionBase =
      Except.ok resumeCtxBase) :=
  ⟨(resume_param_checks resumeEnvBasic resumeCtxBase chResumeBase
      { sessionBase with sessionIdCtx := [9] }).1 (by decide),
   (resume_param_checks resumeEnvBasic
      { resumeCtxBase with negoVersion := HITLS_VERSION_TLS11 } chResumeBase sessionBase).2.1
      (by decide) (by decide),
   (resume_param_checks resumeEnvBasic resumeCtxBase
      { chResumeBase with cipherSuites := [61] } sessionBase).2.2.1 (by decide) (by decide)
      (by decide),
   (resume_param_checks resumeEnvBasic resumeCtxBase chResumeBase sessionBase).2.2.2
      (by decide) (by decide) (by decide) (by rfl) (by decide)⟩

/-- Claim C10: with a non-empty session-ticket payload and ticket support,
the server resolves resumption exclusively by ticket decryption (no
session-id cache lookup); the session-id lookup happens only when the ticket
payload is empty; and during renegotiation with resumption-on-renegotiation
disabled neither lookup is attempted while `isResume`/`isTicket` stay
false. -/
theorem resume_lookup_discipline (env : ResumeEnv) (ctx : ResumeCtx) (ch : CHResume) :
    (ch.ticket ≠ [] → ctx.supportTicket = true →
      ¬(ctx.isRenegotiation = true ∧ ctx.isResumptionOnRenego = false) →
      (ServerCheckResume env ctx ch).1 = [ResumeAction.decryptTicketAct ch.ticket]) ∧
    (ch.ticket ≠ [] → ctx.supportTicket = false →
      ¬(ctx.isRenegotiation = true ∧ ctx.isResumptionOnRenego = false) →
      (ServerCheckResume env ctx ch).1 = []) ∧
    (ch.ticket = [] → ¬(ctx.isRenegotiation = true ∧ ctx.isResumptionOnRenego = false) →
      (ServerCheckResume env ctx ch).1 = [ResumeAction.findBySessionId ch.sessionId]) ∧
    (ctx.isRenegotiation = true → ctx.isResumptionOnRenego = false →
      (ServerCheckResume env ctx ch).1 = [] ∧
      (ServerCheckResume env ctx ch).2 =
        Except.ok { ctx with isResume := false, isTicket := false }) := by
  refine ⟨?_, ?_, ?_, ?_⟩
  · intro ht hsup hgate
    simp [ServerCheckResume, ServerCheckResumeTicket, ht, hsup, hgate]
  · intro ht hsup hgate
    simp [ServerCheckResume, ht, hsup, hgate]
  · intro ht hgate
    simp [ServerCheckResume, ht, hgate]
  · intro hr hg
    simp [ServerCheckResume, hr, hg]

/-- Witness for C10 at concrete inputs: all four lookup modes. -/
theorem resume_lookup_discipline_witness :
    ((ServerCheckResume resumeEnvBasic resumeCtxBase
        { chResumeBase with ticket := [5] }).1 = [ResumeAction.decryptTicketAct [5]]) ∧
    ((ServerCheckResume resumeEnvBasic { resumeCtxBase with supportTicket := false }
        { chResumeBase with ticket := [5] }).1 = []) ∧
    ((ServerCheckResume resumeEnvBasic resumeCtxBase chResumeBase).1 =
      [ResumeAction.findBySessionId chResumeBase.sessionId]) ∧
    ((ServerCheckResume resumeEnvBasic
        { resumeCtxBase with isRenegotiation := true } chResumeBase).1 = [] ∧
     (ServerCheckResume resumeEnvBasic
        { resumeCtxBase with isRenegotiation := true } chResumeBase).2 =
      Except.ok { resumeCtxBase with
                  isRenegotiation := true, isResume := false, isTicket := false }) :=
  ⟨(resume_lookup_discipline resumeEnvBasic resumeCtxBase
      { chResumeBase with ticket := [5] }).1 (by decide) (by decide) (by decide),
   (resume_lookup_discipline resumeEnvBasic { resumeCtxBase with supportTicket := false }
      { chResumeBase with ticket := [5] }).2.1 (by decide) (by decide) (by decide),
   (resume_lookup_discipline resumeEnvBasic resumeCtxBase chResumeBase).2.2.1 (by decide)
      (by decide),
   (resume_lookup_discipline resumeEnvBasic
      { resumeCtxBase with isRenegotiation := true } chResumeBase).2.2.2 (by decide) (by decide)⟩

/-- Counterexample to C4 as stated: without `supported_versions`, a client
legacy version of TLS 1.3 against a server range [TLS 1.2, TLS 1.3] yields
`min(c_max, s_max) = TLS 1.3 ≥ s_min`, yet the code negotiates TLS 1.2 (the
legacy version is capped at TLS 1.2 per RFC 8446 §4.2.1), not the claimed
minimum. -/
theorem version_nego_counterexample :
    SelectVersionWithoutSupportedVersions HITLS_VERSION_TLS12 HITLS_VERSION_TLS13
        HITLS_VERSION_TLS13 = Except.ok HITLS_VERSION_TLS12 ∧
    min HITLS_VERSION_TLS13 HITLS_VERSION_TLS13 = HITLS_VERSION_TLS13 ∧
    HITLS_VERSION_TLS12 ≠ HITLS_VERSION_TLS13 := by
  refine ⟨by rfl, by decide, by decide⟩

/-- Claim C4 (amended): for negotiation without `supported_versions`, the
client's offered maximum is first capped at TLS 1.2; the server then
negotiates `min(min(c_max, TLS1.2), s_max)` when that value is ≥ `s_min`, and
otherwise fails with an unsupported-version error and a fatal
`protocol_version` alert.  This holds for `ServerSelectNegoVersion` (the TLS
≤1.2 entry, non-DTLS, sane range, security policy passing) and for
`CheckVersion` via the TLS 1.3 entry (where `s_max` is TLS 1.3). -/
theorem version_nego_min_with_tls12_cap (cmax smin smax : Nat) (secCheck : Nat → Bool) :
    (smin ≤ smax → smax ≤ HITLS_VERSION_TLS12 →
      secCheck (min (min cmax HITLS_VERSION_TLS12) smax) = true →
      ServerSelectNegoVersion false secCheck cmax smin smax =
        (if smin ≤ min (min cmax HITLS_VERSION_TLS12) smax then
          Except.ok (min (min cmax HITLS_VERSION_TLS12) smax)
         else Except.error (HErr.unsupportVersion, fatalAlert AlertDescr.protocolVersion))) ∧
    (HITLS_VERSION_TLS10 ≤ smin → smin ≤ HITLS_VERSION_TLS12 →
      SelectVersionWithoutSupportedVersions smin HITLS_VERSION_TLS13 cmax =
        (if smin ≤ min (min cmax HITLS_VERSION_TLS12) HITLS_VERSION_TLS13 then
          Except.ok (min (min cmax HITLS_VERSION_TLS12) HITLS_VERSION_TLS13)
         else Except.error (HErr.unsupportVersion, fatalAlert AlertDescr.protocolVersion))) := by
  constructor
  · intro hms hmx hsec
    simp only [ServerSelectNegoVersion]
    by_cases hc : HITLS_VERSION_TLS13 < cmax
    · have hcl : (if HITLS_VERSION_TLS13 < cmax ∧ ¬false = true then HITLS_VERSION_TLS12
          else cmax) = HITLS_VERSION_TLS12 := if_pos ⟨hc, by simp⟩
      rw [hcl, show isDtlsVer HITLS_VERSION_TLS12 = false from by decide]
      rw [if_neg (show ¬(false = true) from by simp)]
      rw [if_neg (show ¬(HITLS_VERSION_TLS12 < smin) from by
        simp only [HITLS_VERSION_TLS12] at *; omega)]
      rw [show (if smax < HITLS_VERSION_TLS12 then smax else HITLS_VERSION_TLS12) =
          min (min cmax HITLS_VERSION_TLS12) smax from by
        simp only [HITLS_VERSION_TLS12, HITLS_VERSION_TLS13] at *; split_ifs <;> omega]
      rw [hsec, if_pos rfl]
      rw [if_pos (show smin ≤ min (min cmax HITLS_VERSION_TLS12) smax from by
        simp only [HITLS_VERSION_TLS12, HITLS_VERSION_TLS13] at *; omega)]
    · have hcl : (if HITLS_VERSION_TLS13 < cmax ∧ ¬false = true then HITLS_VERSION_TLS12
          else cmax) = cmax := if_neg (fun h => hc h.1)
      rw [hcl]
      rw [show isDtlsVer cmax = false from by
        simp only [isDtlsVer, HITLS_VERSION_DTLS10, HITLS_VERSION_DTLS12,
          decide_eq_false_iff_not]
        simp only [HITLS_VERSION_TLS13] at hc
        omega]
      rw [if_neg (show ¬(false = true) from by simp)]
      by_cases h1 : cmax < smin
      · rw [if_pos h1, if_neg (show ¬(smin ≤ min (min cmax HITLS_VERSION_TLS12) smax) from by
          simp only [HITLS_VERSION_TLS12] at *; omega)]
      · rw [if_neg h1]
        rw [show (if smax < cmax then smax else cmax) =
            min (min cmax HITLS_VERSION_TLS12) smax from by
          simp only [HITLS_VERSION_TLS12, HITLS_VERSION_TLS13] at *; split_ifs <;> omega]
        rw [hsec, if_pos rfl]
        rw [if_pos (show smin ≤ min (min cmax HITLS_VERSION_TLS12) smax from by
          simp only [HITLS_VERSION_TLS12] at *; omega)]
  · intro hmn hmx
    have hck : CheckVersion cmax smin HITLS_VERSION_TLS13 =
        (if smin ≤ min (min cmax HITLS_VERSION_TLS12) HITLS_VERSION_TLS13 then
          Except.ok (min (min cmax HITLS_VERSION_TLS12) HITLS_VERSION_TLS13)
         else Except.error HErr.unsupportVersion) := by
      simp only [CheckVersion]
      by_cases hc : HITLS_VERSION_TLS13 ≤ cmax
      · have hcl : (if HITLS_VERSION_TLS13 ≤ cmax ∧ ¬isDtlsVer HITLS_VERSION_TLS13 = true then
            HITLS_VERSION_TLS12 else cmax) = HITLS_VERSION_TLS12 := if_pos ⟨hc, by decide⟩
        rw [hcl]
        rw [if_pos (show (HITLS_VERSION_SSL30 < HITLS_VERSION_TLS12 ∨
            HITLS_VERSION_TLS12 = HITLS_VERSION_TLCP11) ∧ smin ≤ HITLS_VERSION_TLS12 ∧
            HITLS_VERSION_TLS12 ≤ HITLS_VERSION_TLS13 from
          ⟨Or.inl (by decide), hmx, by decide⟩)]
        rw [show min (min cmax HITLS_VERSION_TLS12) HITLS_VERSION_TLS13 =
            HITLS_VERSION_TLS12 from by
          simp only [HITLS_VERSION_TLS12, HITLS_VERSION_TLS13] at *; omega]
        rw [if_pos hmx]
      · have hcl : (if HITLS_VERSION_TLS13 ≤ cmax ∧ ¬isDtlsVer HITLS_VERSION_TLS13 = true then
            HITLS_VERSION_TLS12 else cmax) = cmax := if_neg (fun h => hc h.1)
        rw [hcl]
        have hW : min (min cmax HITLS_VERSION_TLS12) HITLS_VERSION_TLS13 = cmax := by
          simp only [HITLS_VERSION_TLS12, HITLS_VERSION_TLS13] at *; omega
        rw [hW]
        by_cases h1 : smin ≤ cmax
        · rw [if_pos (show (HITLS_VERSION_SSL30 < cmax ∨ cmax = HITLS_VERSION_TLCP11) ∧
              smin ≤ cmax ∧ cmax ≤ HITLS_VERSION_TLS13 from
            ⟨Or.inl (by simp only [HITLS_VERSION_SSL30, HITLS_VERSION_TLS10,
                HITLS_VERSION_TLS12] at *; omega), h1,
             by simp only [HITLS_VERSION_TLS13] at *; omega⟩)]
          rw [if_pos h1]
        · rw [if_neg (show ¬((HITLS_VERSION_SSL30 < cmax ∨ cmax = HITLS_VERSION_TLCP11) ∧
              smin ≤ cmax ∧ cmax ≤ HITLS_VERSION_TLS13) from fun h => h1 h.2.1)]
          rw [if_neg h1]
    unfold SelectVersionWithoutSupportedVersions
    rw [hck]
    by_cases h : smin ≤ min (min cmax HITLS_VERSION_TLS12) HITLS_VERSION_TLS13
    · rw [if_pos h, if_pos h]
    · rw [if_neg h, if_neg h]

/-- Witness for the amended C4 at concrete inputs: both negotiation functions,
success and failure. -/
theorem version_nego_min_with_tls12_cap_witness :
    (ServerSelectNegoVersion false (fun _ => true) HITLS_VERSION_TLS13 HITLS_VERSION_TLS10
        HITLS_VERSION_TLS12 =
      (if HITLS_VERSION_TLS10 ≤
            min (min HITLS_VERSION_TLS13 HITLS_VERSION_TLS12) HITLS_VERSION_TLS12 then
        Except.ok (min (min HITLS_VERSION_TLS13 HITLS_VERSION_TLS12) HITLS_VERSION_TLS12)
       else Except.error (HErr.unsupportVersion, fatalAlert AlertDescr.protocolVersion))) ∧
    (SelectVersionWithoutSupportedVersions HITLS_VERSION_TLS12 HITLS_VERSION_TLS13
        HITLS_VERSION_TLS11 =
      (if HITLS_VERSION_TLS12 ≤
            min (min HITLS_VERSION_TLS11 HITLS_VERSION_TLS12) HITLS_VERSION_TLS13 then
        Except.ok (min (min HITLS_VERSION_TLS11 HITLS_VERSION_TLS12) HITLS_VERSION_TLS13)
       else Except.error (HErr.unsupportVersion, fatalAlert AlertDescr.protocolVersion))) :=
  ⟨(version_nego_min_with_tls12_cap HITLS_VERSION_TLS13 HITLS_VERSION_TLS10 HITLS_VERSION_TLS12
      (fun _ => true)).1 (by decide) (by decide) (by decide),
   (version_nego_min_with_tls12_cap HITLS_VERSION_TLS11 HITLS_VERSION_TLS12 HITLS_VERSION_TLS13
      (fun _ => true)).2 (by decide) (by decide)⟩

/-- Claim C8: every successfully packed TLCP 1.1 ECDHE ClientKeyExchange
starts with the 3-byte header `named_curve type || SM2-id high byte || SM2-id
low byte` immediately before the length-prefixed ECDH point, while non-TLCP
versions emit only the length-prefixed point. -/
theorem tlcp_kx_sm2_header (env : PackEnv) (version namedcurve bufLen : Nat) (out : Bytes) :
    PackClientKxMsgNamedCurve env version namedcurve bufLen = Except.ok out →
    ∃ pt, env.encodeEcdhPubKey = some pt ∧
      ((version = HITLS_VERSION_TLCP11 →
        out = HITLS_EC_CURVE_TYPE_NAMED_CURVE :: HITLS_EC_GROUP_SM2 / 256 % 256 ::
          HITLS_EC_GROUP_SM2 % 256 :: pt.length % 256 :: pt) ∧
       (version ≠ HITLS_VERSION_TLCP11 → out = pt.length % 256 :: pt)) := by
  intro h
  rcases henc : env.encodeEcdhPubKey with _ | pt
  · simp only [PackClientKxMsgNamedCurve, henc] at h
    split_ifs at h
  · simp only [PackClientKxMsgNamedCurve, henc] at h
    split_ifs at h with h1 h2 h3 h4 h5 <;> try simp at h
    · refine ⟨pt, rfl, fun _ => ?_, fun hv => absurd h5 hv⟩
      rw [← h]
      simp [BSL_Uint16ToByte]
    · refine ⟨pt, rfl, fun hv => absurd hv h5, fun _ => ?_⟩
      rw [← h]

/-- Witness for C8 at concrete inputs: a TLCP pack and a TLS 1.2 pack. -/
theorem tlcp_kx_sm2_header_witness :
    (∃ pt, packEnvSm2.encodeEcdhPubKey = some pt ∧
      ((HITLS_VERSION_TLCP11 = HITLS_VERSION_TLCP11 →
        [3, 0, 41, 3, 4, 7, 9] = HITLS_EC_CURVE_TYPE_NAMED_CURVE ::
          HITLS_EC_GROUP_SM2 / 256 % 256 :: HITLS_EC_GROUP_SM2 % 256 ::
          pt.length % 256 :: pt) ∧
       (HITLS_VERSION_TLCP11 ≠ HITLS_VERSION_TLCP11 →
        [3, 0, 41, 3, 4, 7, 9] = pt.length % 256 :: pt))) ∧
    (∃ pt, packEnvSm2.encodeEcdhPubKey = some pt ∧
      ((HITLS_VERSION_TLS12 = HITLS_VERSION_TLCP11 →
        [3, 4, 7, 9] = HITLS_EC_CURVE_TYPE_NAMED_CURVE ::
          HITLS_EC_GROUP_SM2 / 256 % 256 :: HITLS_EC_GROUP_SM2 % 256 ::
          pt.length % 256 :: pt) ∧
       (HITLS_VERSION_TLS12 ≠ HITLS_VERSION_TLCP11 →
        [3, 4, 7, 9] = pt.length % 256 :: pt))) :=
  ⟨tlcp_kx_sm2_header packEnvSm2 HITLS_VERSION_TLCP11 41 10 [3, 0, 41, 3, 4, 7, 9] (by rfl),
   tlcp_kx_sm2_header packEnvSm2 HITLS_VERSION_TLS12 41 10 [3, 4, 7, 9] (by rfl)⟩

/-- Counterexample to C2 as stated: after an HRR, a second ClientHello whose
`session_id` differs from the first ClientHello's (with identical cipher
suites and a matching key share) passes both checks — the session_id is never
compared, no `illegal_parameter` alert is raised. -/
theorem hrr_second_hello_session_id_not_checked :
    ch13First.sessionId ≠ ch13Second.sessionId ∧
    Tls13ServerCheckSecondClientHello hs13CtxHrr ch13Second = Except.ok hs13CtxHrr ∧
    ServerCheckKeyShare curveEnvAll hs13CtxHrr ch13Second =
      Except.ok { hs13CtxHrr with shareGroup := 29, negotiatedGroup := 29 } := by
  refine ⟨by decide, by rfl, by rfl⟩

/-- Claim C2 (amended): after an HRR the server verifies that the second
ClientHello's cipher-suite list equals the first one's and that the
`key_share` holds exactly one entry whose group is the HRR-selected group;
either mismatch aborts with a fatal `illegal_parameter` alert.  The
`session_id` is NOT compared: the cipher-suite check is insensitive to it. -/
theorem hrr_second_hello_checks (env : CurveEnv) (ctx : Hs13Ctx) (ch : CH13) (first : CH13) :
    ctx.haveHrr = true → ctx.firstClientHello = some first →
    ((first.cipherSuites ≠ ch.cipherSuites →
       Tls13ServerCheckSecondClientHello ctx ch =
         Except.error (HErr.illegalCipherSuite, fatalAlert AlertDescr.illegalParameter)) ∧
     (first.cipherSuites = ch.cipherSuites →
       Tls13ServerCheckSecondClientHello ctx ch = Except.ok ctx) ∧
     (∀ sid, Tls13ServerCheckSecondClientHello ctx { ch with sessionId := sid } =
       Tls13ServerCheckSecondClientHello ctx ch) ∧
     (∀ ctx1, ch.haveKeyShare = true → ch.supportedGroups ≠ [] →
       ProcessEcdheCipherSuite env ctx ch = Except.ok ctx1 →
       ctx1.haveHrr = true →
       (¬∃ e, ch.keyShare = [e] ∧ e.group = ctx1.shareGroup) →
       ServerCheckKeyShare env ctx ch =
         Except.error (HErr.illegalSelectedGroup, fatalAlert AlertDescr.illegalParameter))) := by
  intro hh hf
  refine ⟨?_, ?_, ?_, ?_⟩
  · intro hne
    simp [Tls13ServerCheckSecondClientHello, hh, hf, hne]
  · intro heq
    simp [Tls13ServerCheckSecondClientHello, hh, hf, heq]
  · intro sid
    simp [Tls13ServerCheckSecondClientHello, hh, hf]
  · intro ctx1 hks hsg hproc hhrr1 hnotone
    have hcond : ¬(¬ch.haveKeyShare ∨ ch.supportedGroups.length = 0) := by
      simp [hks, hsg]
    unfold ServerCheckKeyShare
    rw [if_neg hcond, hproc]
    dsimp only
    rw [if_pos (show ctx1.haveHrr = true from hhrr1)]
    match hkx : ch.keyShare with
    | [] => rfl
    | [e] =>
      dsimp only
      rw [if_pos ?_]
      intro hge
      exact hnotone ⟨e, hkx, hge⟩
    | e :: f :: t => rfl

/-- Witness for the amended C2 at concrete inputs: cipher mismatch, cipher
match, session-id insensitivity, and key-share mismatch. -/
theorem hrr_second_hello_checks_witness :
    (Tls13ServerCheckSecondClientHello hs13CtxHrr
        { ch13Second with cipherSuites := [0x1302] } =
      Except.error (HErr.illegalCipherSuite, fatalAlert AlertDescr.illegalParameter)) ∧
    (Tls13ServerCheckSecondClientHello hs13CtxHrr ch13Second = Except.ok hs13CtxHrr) ∧
    (Tls13ServerCheckSecondClientHello hs13CtxHrr { ch13Second with sessionId := [7] } =
      Tls13ServerCheckSecondClientHello hs13CtxHrr ch13Second) ∧
    (ServerCheckKeyShare curveEnvAll hs13CtxHrr
        { ch13Second with keyShare := [{ group := 30, keyExchange := [1] }] } =
      Except.error (HErr.illegalSelectedGroup, fatalAlert AlertDescr.illegalParameter)) :=
  ⟨(hrr_second_hello_checks curveEnvAll hs13CtxHrr
      { ch13Second with cipherSuites := [0x1302] } ch13First rfl rfl).1 (by decide),
   (hrr_second_hello_checks curveEnvAll hs13CtxHrr ch13Second ch13First rfl rfl).2.1
      (by decide),
   (hrr_second_hello_checks curveEnvAll hs13CtxHrr ch13Second ch13First rfl rfl).2.2.1 [7],
   (hrr_second_hello_checks curveEnvAll hs13CtxHrr
      { ch13Second with keyShare := [{ group := 30, keyExchange := [1] }] } ch13First rfl
      rfl).2.2.2 { hs13CtxHrr with shareGroup := 29, negotiatedGroup := 29 } rfl (by decide)
      (by rfl) rfl (by rintro ⟨e, he, hg⟩; simp at he; cases he; simp at hg)⟩

/-- Helper: `ServerFindPsk` only reads the context through its
`isResume := false` update, so pre-clearing `isResume` changes nothing. -/
theorem serverFindPsk_shift (env : Psk13Env) (ctx : Psk13Ctx) (cur : PskNode) :
    ServerFindPsk env { ctx with isResume := false } cur = ServerFindPsk env ctx cur := rfl

/-- Helper: when `TLS13ServerProcessTicket` yields an empty PSK it leaves the
context unchanged. -/
theorem tls13ProcessTicket_skip (env : Psk13Env) (ctx : Psk13Ctx) (cur : PskNode)
    (psk : Bytes) (ctx1 : Psk13Ctx)
    (h : TLS13ServerProcessTicket env ctx cur = Except.ok (psk, ctx1))
    (hlen : psk.length = 0) : ctx1 = ctx := by
  unfold TLS13ServerProcessTicket at h
  rcases hdt : env.decryptTicket cur.identity with _ | ⟨_ | ps, b⟩ <;> rw [hdt] at h <;>
    dsimp only at h
  · simp at h
  · simp only [Except.ok.injEq, Prod.mk.injEq] at h
    exact h.2.symm
  · by_cases hv : ¬IsPSKValid env ctx ps = true ∨ ¬env.ageOk ps cur.obfuscatedTicketAge = true
    · rw [if_pos hv] at h
      simp only [Except.ok.injEq, Prod.mk.injEq] at h
      exact h.2.symm
    · rw [if_neg hv] at h
      by_cases hic : ¬ServerCmpSessionIdCtx ctx.sessionIdCtx ps.sessionIdCtx = true
      · rw [if_pos hic] at h
        simp at h
      · rw [if_neg hic] at h
        rcases hg : GetPskFromSession env ps with e | pskg <;> rw [hg] at h <;> dsimp only at h
        · simp at h
        · by_cases hl0 : pskg.length = 0
          · rw [if_pos hl0] at h
            simp only [Except.ok.injEq, Prod.mk.injEq] at h
            exact h.2.symm
          · rw [if_neg hl0] at h
            simp only [Except.ok.injEq, Prod.mk.injEq] at h
            exact absurd (h.1.symm ▸ hlen) hl0

/-- Helper: when `ServerFindPsk` yields an empty PSK (identity did not
resolve) it only clears `isResume`. -/
theorem serverFindPsk_skip (env : Psk13Env) (ctx : Psk13Ctx) (cur : PskNode)
    (psk : Bytes) (ctx1 : Psk13Ctx)
    (h : ServerFindPsk env ctx cur = Except.ok (psk, ctx1)) (hlen : psk.length = 0) :
    ctx1 = { ctx with isResume := false } := by
  unfold ServerFindPsk at h
  rcases hf : PskFindSession env cur.identity with e | sOpt <;> rw [hf] at h <;> dsimp only at h
  · simp at h
  · rcases sOpt with _ | ps <;> dsimp only at h
    · by_cases hh : ctx.negoHashAlg = HITLS_HASH_SHA_256
      · rw [if_pos hh] at h
        rcases hg : GetPskByIdentity env cur.identity with e | pskg <;> rw [hg] at h <;>
          dsimp only at h
        · simp at h
        · by_cases hl0 : 0 < pskg.length
          · rw [if_pos hl0] at h
            simp only [Except.ok.injEq, Prod.mk.injEq] at h
            rw [← h.1] at hlen
            omega
          · rw [if_neg hl0] at h
            exact tls13ProcessTicket_skip env _ cur psk ctx1 h hlen
      · rw [if_neg hh] at h
        exact tls13ProcessTicket_skip env _ cur psk ctx1 h hlen
    · by_cases hv : ¬IsPSKValid env { ctx with isResume := false } ps = true
      · rw [if_pos hv] at h
        simp only [Except.ok.injEq, Prod.mk.injEq] at h
        exact h.2.symm
      · rw [if_neg hv] at h
        rcases hg : GetPskFromSession env ps with e | pskg <;> rw [hg] at h <;> dsimp only at h
        · simp at h
        · simp only [Except.ok.injEq, Prod.mk.injEq] at h
          exact h.2.symm

/-- Helper: full characterisation of the PSK selection loop, generalised over
the running index and context. -/
theorem pskLoop_spec (env : Psk13Env) (msgBuf : Bytes) (truncLen : Nat) :
    ∀ (nodes : List PskNode) (ctx : Psk13Ctx) (index : Nat),
      (ServerSelectPskAndCheckBinderLoop env msgBuf truncLen ctx nodes
        index).checkedBinders.length ≤ 1 ∧
      (∀ i, (ServerSelectPskAndCheckBinderLoop env msgBuf truncLen ctx nodes
          index).checkedBinders = [i] →
        ∃ k, i = index + k ∧
          (∀ n ∈ nodes.take k, ∃ c, ServerFindPsk env ctx n = Except.ok ([], c)) ∧
          ∃ nk psk ctx1, nodes.get? k = some nk ∧
            ServerFindPsk env ctx nk = Except.ok (psk, ctx1) ∧ psk ≠ [] ∧
            ((CompareBinder env (Tls13ServerSetPskInfo ctx1 psk i) nk psk msgBuf truncLen =
                Except.ok () ∧
              (ServerSelectPskAndCheckBinderLoop env msgBuf truncLen ctx nodes index).out =
                Except.ok (Tls13ServerSetPskInfo ctx1 psk i)) ∨
             (∃ e, CompareBinder env (Tls13ServerSetPskInfo ctx1 psk i) nk psk msgBuf
                truncLen = Except.error e ∧
              (ServerSelectPskAndCheckBinderLoop env msgBuf truncLen ctx nodes index).out =
                Except.error (e, fatalAlert AlertDescr.decryptError)))) := by
  intro nodes
  induction nodes with
  | nil =>
    intro ctx index
    constructor
    · simp [ServerSelectPskAndCheckBinderLoop]
    · intro i hi
      simp [ServerSelectPskAndCheckBinderLoop] at hi
  | cons cur rest ih =>
    intro ctx index
    rcases hf : ServerFindPsk env ctx cur with e | pr
    · have hstep : ServerSelectPskAndCheckBinderLoop env msgBuf truncLen ctx (cur :: rest)
          index = { out := Except.error e, checkedBinders := [] } := by
        simp [ServerSelectPskAndCheckBinderLoop, hf]
      rw [hstep]
      exact ⟨by simp, fun i hi => by simp at hi⟩
    · obtain ⟨psk, ctx1⟩ := pr
      by_cases hlen : psk.length = 0
      · have hstep : ServerSelectPskAndCheckBinderLoop env msgBuf truncLen ctx (cur :: rest)
            index = ServerSelectPskAndCheckBinderLoop env msgBuf truncLen ctx1 rest
            (index + 1) := by
          simp [ServerSelectPskAndCheckBinderLoop, hf, hlen]
        have hctx1 : ctx1 = { ctx with isResume := false } :=
          serverFindPsk_skip env ctx cur psk ctx1 hf hlen
        obtain ⟨ihA, ihB⟩ := ih ctx1 (index + 1)
        rw [hstep]
        refine ⟨ihA, ?_⟩
        intro i hi
        obtain ⟨k, hik, hpre, nk, psk', ctx1', hget, hfind', hne, hrest⟩ := ihB i hi
        rw [hctx1] at hpre hfind'
        rw [serverFindPsk_shift] at hfind'
        refine ⟨k + 1, by omega, ?_, nk, psk', ctx1', hget, hfind', hne, hrest⟩
        intro n hn
        rw [List.take_succ_cons] at hn
        rcases List.mem_cons.mp hn with hn | hn
        · subst hn
          exact ⟨ctx1, by rw [hf, List.length_eq_zero.mp hlen]⟩
        · obtain ⟨c, hc⟩ := hpre n hn
          rw [serverFindPsk_shift] at hc
          exact ⟨c, hc⟩
      · rcases hcmp : CompareBinder env (Tls13ServerSetPskInfo ctx1 psk index) cur psk
            msgBuf truncLen with e | u
        · have hstep : ServerSelectPskAndCheckBinderLoop env msgBuf truncLen ctx (cur :: rest)
              index = { out := Except.error (e, fatalAlert AlertDescr.decryptError),
                        checkedBinders := [index] } := by
            simp [ServerSelectPskAndCheckBinderLoop, hf, hlen, hcmp]
          rw [hstep]
          refine ⟨by simp, ?_⟩
          intro i hi
          simp only [List.cons.injEq, and_true] at hi
          subst hi
          refine ⟨0, by omega, by simp, cur, psk, ctx1, rfl, hf, ?_,
            Or.inr ⟨e, hcmp, rfl⟩⟩
          intro hc
          rw [hc] at hlen
          simp at hlen
        · have hstep : ServerSelectPskAndCheckBinderLoop env msgBuf truncLen ctx (cur :: rest)
              index = { out := Except.ok (Tls13ServerSetPskInfo ctx1 psk index),
                        checkedBinders := [index] } := by
            simp [ServerSelectPskAndCheckBinderLoop, hf, hlen, hcmp]
          rw [hstep]
          refine ⟨by simp, ?_⟩
          intro i hi
          simp only [List.cons.injEq, and_true] at hi
          subst hi
          refine ⟨0, by omega, by simp, cur, psk, ctx1, rfl, hf, ?_,
            Or.inl ⟨by rw [hcmp], rfl⟩⟩
          intro hc
          rw [hc] at hlen
          simp at hlen

/-- Claim C1: the TLS 1.3 server validates at most one binder per handshake;
when a binder at index `i` is validated, every earlier identity failed to
resolve, identity `i` is the first that resolved to a PSK, the binder is
recomputed (via `CompareBinder`) over the truncated ClientHello bytes
(`msgBuf.take truncLen`) and compared with the received binder, a match
selects that PSK (index recorded), and any mismatch aborts with a fatal
`decrypt_error` alert. -/
theorem psk_single_binder_validation (env : Psk13Env) (ctx : Psk13Ctx) (msgBuf : Bytes)
    (truncLen : Nat) (nodes : List PskNode) :
    (ServerSelectPskAndCheckBinder env ctx msgBuf truncLen nodes).checkedBinders.length ≤ 1 ∧
    (∀ i, (ServerSelectPskAndCheckBinder env ctx msgBuf truncLen nodes).checkedBinders =
        [i] →
      (∀ n ∈ nodes.take i, ∃ c, ServerFindPsk env ctx n = Except.ok ([], c)) ∧
      ∃ ni psk ctx1, nodes.get? i = some ni ∧
        ServerFindPsk env ctx ni = Except.ok (psk, ctx1) ∧ psk ≠ [] ∧
        ((CompareBinder env (Tls13ServerSetPskInfo ctx1 psk i) ni psk msgBuf truncLen =
            Except.ok () ∧
          (ServerSelectPskAndCheckBinder env ctx msgBuf truncLen nodes).out =
            Except.ok (Tls13ServerSetPskInfo ctx1 psk i)) ∨
         (∃ e, CompareBinder env (Tls13ServerSetPskInfo ctx1 psk i) ni psk msgBuf truncLen =
            Except.error e ∧
          (ServerSelectPskAndCheckBinder env ctx msgBuf truncLen nodes).out =
            Except.error (e, fatalAlert AlertDescr.decryptError)))) := by
  obtain ⟨hA, hB⟩ := pskLoop_spec env msgBuf truncLen nodes ctx 0
  refine ⟨hA, ?_⟩
  intro i hi
  obtain ⟨k, hik, hpre, nk, psk, ctx1, hget, hfind, hne, hrest⟩ := hB i hi
  have hk : k = i := by omega
  subst hk
  exact ⟨hpre, nk, psk, ctx1, hget, hfind, hne, hrest⟩

/-- Witness for C1 at concrete inputs: identity `[1]` does not resolve,
identity `[2]` resolves and its binder matches. -/
theorem psk_single_binder_validation_witness :
    (∀ n ∈ pskNodesW.take 1, ∃ c, ServerFindPsk psk13EnvW psk13CtxW n =
      Except.ok ([], c)) ∧
    ∃ ni psk ctx1, pskNodesW.get? 1 = some ni ∧
      ServerFindPsk psk13EnvW psk13CtxW ni = Except.ok (psk, ctx1) ∧ psk ≠ [] ∧
      ((CompareBinder psk13EnvW (Tls13ServerSetPskInfo ctx1 psk 1) ni psk [0, 1, 2] 2 =
          Except.ok () ∧
        (ServerSelectPskAndCheckBinder psk13EnvW psk13CtxW [0, 1, 2] 2 pskNodesW).out =
          Except.ok (Tls13ServerSetPskInfo ctx1 psk 1)) ∨
       (∃ e, CompareBinder psk13EnvW (Tls13ServerSetPskInfo ctx1 psk 1) ni psk [0, 1, 2] 2 =
          Except.error e ∧
        (ServerSelectPskAndCheckBinder psk13EnvW psk13CtxW [0, 1, 2] 2 pskNodesW).out =
          Except.error (e, fatalAlert AlertDescr.decryptError))) :=
  (psk_single_binder_validation psk13EnvW psk13CtxW [0, 1, 2] 2 pskNodesW).2 1 (by rfl)

end HiTLS
